import Mathlib

/-!
# Verification of the KSP autopilot mission script

Shallow embedding of the mission script (`code.py`): the `DualLogger` and
`FlightDataLogger` components, the outcome classification performed at mission
end, and the mission sequencer (`main`), modelled as pure functions over
explicit telemetry traces.  Telemetry values are modelled as rationals (`ℚ`);
the Python floats only ever take part in order comparisons against decimal
literals, which `ℚ` reproduces exactly.  A polling loop is modelled as a
function consuming a list of per-iteration telemetry snapshots; exceptions
that the code catches are modelled with `Option`.
-/

/-- One polled telemetry snapshot: the values the script can read during one
loop iteration (`mean_altitude`, `apoapsis_altitude`, `periapsis_altitude`,
`pitch`, `heading`, the `LiquidFuel` and `Oxidizer` amounts).  `tick` models
whether the time-based data-log cadence (`current_time - last_data_log > …`)
has elapsed on this iteration. -/
structure Snapshot where
  altitude : ℚ
  apoapsis : ℚ
  periapsis : ℚ
  pitch : ℚ
  heading : ℚ
  fuel : ℚ
  oxidizer : ℚ
  tick : Bool
deriving Repr, DecidableEq

/-- Convenience constructor for concrete snapshots. -/
def mkSnap (alt apo peri pitch heading fuel ox : ℚ) (tick : Bool) : Snapshot :=
  ⟨alt, apo, peri, pitch, heading, fuel, ox, tick⟩

/-- The six distinct final-analysis branches of `main` (lines 515-535). -/
inductive Outcome
  | failureRanDryPositivePeri
  | failureRanDryNegativePeri
  | successHighPrecision
  | successAcceptable
  | suboptimalOrbit
  | criticalSuborbital
deriving Repr, DecidableEq

/-- Whether an outcome is one of the two success branches
("УСПЕХ: Орбита достигнута!"). -/
def Outcome.isSuccess : Outcome → Bool
  | Outcome.successHighPrecision => true
  | Outcome.successAcceptable => true
  | _ => false

/-- The outcome classification of `main` (lines 515-535), literally following
the `if fuel_empty / elif final_peri >= 70000 / elif final_peri > 0 / else`
chain of the source, with the nested `74000 <= final_peri <= 76000` precision
check. -/
def classify (fuel_empty : Bool) (final_peri : ℚ) : Outcome :=
  if fuel_empty then
    if 0 < final_peri then Outcome.failureRanDryPositivePeri
    else Outcome.failureRanDryNegativePeri
  else if 70000 ≤ final_peri then
    if 74000 ≤ final_peri ∧ final_peri ≤ 76000 then Outcome.successHighPrecision
    else Outcome.successAcceptable
  else if 0 < final_peri then Outcome.suboptimalOrbit
  else Outcome.criticalSuborbital

/-- Modelled from the spec: the decision table of spec section 4.4, written
row by row in the table's own order, to be compared with `classify` (which is
translated from the source). -/
def classifySpecTable (fuel_empty : Bool) (final_peri : ℚ) : Outcome :=
  if fuel_empty = true ∧ 0 < final_peri then Outcome.failureRanDryPositivePeri
  else if fuel_empty = true ∧ final_peri ≤ 0 then Outcome.failureRanDryNegativePeri
  else if fuel_empty = false ∧ (70000 ≤ final_peri ∧ 74000 ≤ final_peri ∧ final_peri ≤ 76000) then
    Outcome.successHighPrecision
  else if fuel_empty = false ∧ 70000 ≤ final_peri then Outcome.successAcceptable
  else if fuel_empty = false ∧ (0 < final_peri ∧ final_peri < 70000) then Outcome.suboptimalOrbit
  else Outcome.criticalSuborbital

/-- Console / event-log lines whose emission can differ between runs:
recorder-initialization result (lines 205 / 207), the two propellant
advisories (lines 346-351), the propellant-exhaustion message (line 461), the
outcome analysis block (lines 515-535) and the final "flight data saved"
notice (line 541).  Lines whose text and emission depend only on the telemetry
trace are not modelled. -/
inductive Event
  | recInitOk
  | recInitWarn
  | lowFuel (fuel : ℚ)
  | veryLowFuel (fuel : ℚ)
  | fuelEmptyMsg
  | outcomeMsg (o : Outcome)
  | dataSaved
deriving Repr, DecidableEq

/-- One step of the propellant-advisory logic of the powered-ascent loop
(lines 346-351): state `w` is the `fuel_warnings` counter;
`if current_fuel < 100 and fuel_warnings == 0: … elif current_fuel < 50 and
fuel_warnings == 1: …`.  Returns the new counter and the advisories logged on
this iteration. -/
def fuelWarnStep (w : Nat) (fuel : ℚ) : Nat × List Event :=
  if fuel < 100 ∧ w = 0 then (w + 1, [Event.lowFuel fuel])
  else if fuel < 50 ∧ w = 1 then (w + 1, [Event.veryLowFuel fuel])
  else (w, [])

/-- Advisories emitted per iteration by a run of the advisory logic over a
list of polled fuel readings: entry `i` lists the advisories logged on
iteration `i`. -/
def fuelWarnEmits : Nat → List ℚ → List (List Event)
  | _, [] => []
  | w, f :: fs => (fuelWarnStep w f).2 :: fuelWarnEmits (fuelWarnStep w f).1 fs

/-- All advisories emitted (in order) by a run of the advisory logic over a
list of polled fuel readings. -/
def fuelAdvisories (w : Nat) (fs : List ℚ) : List Event :=
  (fuelWarnEmits w fs).flatten

/-- `DualLogger.log` (lines 18-31): the line written, as a function of the
formatted timestamp, the message and the `show_time` flag. -/
def logLine (timestamp message : String) (show_time : Bool) : String :=
  if show_time then "[" ++ timestamp ++ "] " ++ message else message

/-- `DualLogger.log` writes the very same line to the console (`print`) and
appends it to the event file: the pair is (console line, file line). -/
def dualLog (timestamp message : String) (show_time : Bool) : String × String :=
  (logLine timestamp message show_time, logLine timestamp message show_time)

/-- The `"=" * 50` border of `DualLogger.section` (line 35). -/
def sectionBorder : String := String.mk (List.replicate 50 '=')

/-- `DualLogger.section` (lines 33-38): three `log` calls with
`show_time = False` — border, upper-cased title, border. -/
def sectionOut (timestamp title : String) : List (String × String) :=
  [dualLog timestamp sectionBorder false,
   dualLog timestamp (title.map Char.toUpper) false,
   dualLog timestamp sectionBorder false]

/-- The 11 column headers written once by `FlightDataLogger._init_file`
(lines 82-95). -/
def flightDataHeaders : List String :=
  ["Время(с)", "Высота(км)", "Скорость(м/с)", "Верт.скорость(м/с)",
   "Гор.скорость(м/с)", "Апоапсис(км)", "Периапсис(км)", "Тангаж(°)",
   "Курс(°)", "Топливо", "Окислитель"]

/-- The reads performed inside the `try` block of `FlightDataLogger.log_data`
(lines 102-114).  `current_time` is local clock arithmetic and cannot raise;
every telemetry-stream read and resource-amount read may raise, modelled as
`Option ℚ` (`none` = the read raised). -/
structure SampleReads where
  current_time : ℚ
  altitude : Option ℚ
  speed : Option ℚ
  v_speed : Option ℚ
  h_speed : Option ℚ
  apoapsis : Option ℚ
  periapsis : Option ℚ
  pitch : Option ℚ
  heading : Option ℚ
  fuel : Option ℚ
  oxidizer : Option ℚ

/-- `FlightDataLogger.log_data` (lines 98-136): if every read succeeds, one
row of 11 values (in the source's column order, with altitude, apoapsis and
periapsis divided by 1000) is appended; if any read raises, the exception is
caught by the surrounding `try`/`except`, nothing is appended, and nothing
propagates — modelled by returning `none`.  The fixed-width decimal rendering
of each value is not modelled; the row holds the values themselves. -/
def logData (r : SampleReads) : Option (List ℚ) :=
  match r.altitude, r.speed, r.v_speed, r.h_speed, r.apoapsis, r.periapsis,
      r.pitch, r.heading, r.fuel, r.oxidizer with
  | some altitude, some speed, some v_speed, some h_speed, some apoapsis,
      some periapsis, some pitch, some heading, some fuel, some oxidizer =>
    some [r.current_time, altitude / 1000, speed, v_speed, h_speed,
      apoapsis / 1000, periapsis / 1000, pitch, heading, fuel, oxidizer]
  | _, _, _, _, _, _, _, _, _, _ => none

/-- Actuator commands issued by `main`, in program order: throttle setting,
staging, SAS on/off and mode selection, autopilot (attitude hold) engage /
target / wait / disengage, and the best-effort solar-panel deployment pass. -/
inductive Cmd
  | throttle (v : ℚ)
  | stage
  | sasOn
  | sasOff
  | sasMode (m : String)
  | apEngage
  | apTarget (pitch heading : ℚ)
  | apWait
  | apDisengage
  | deployPanels
deriving Repr, DecidableEq

/-- Operations on the flight-data recorder: a status annotation
(`log_status`), one tabular data row (`log_data`) and the closing summary
(`close`).  Status annotations keep the fixed part of the source's message;
interpolated numbers are elided. -/
inductive RecOp
  | status (tag : String)
  | data
  | close
deriving Repr, DecidableEq

/-- The mission phases of spec section 4.3. -/
inductive Phase
  | Ignition
  | GravityTurn
  | PoweredAscentToTargetApoapsis
  | CoastToApoapsis
  | CircularizationBurn
  | MissionSummary
  | Aborted
deriving Repr, DecidableEq

/-- A polling loop `while not p: sleep` over a telemetry trace: returns the
consumed failing snapshots, the first snapshot satisfying the exit condition,
and the unread remainder — or `none` if the trace never satisfies `p` (the
loop would spin forever; the code has no timeout). -/
def pollUntil (p : Snapshot → Prop) [DecidablePred p] :
    List Snapshot → Option (List Snapshot × Snapshot × List Snapshot)
  | [] => none
  | s :: rest =>
    if p s then some ([], s, rest)
    else (pollUntil p rest).map (fun x => (s :: x.1, x.2.1, x.2.2))

/-- The circularization-burn loop (lines 448-477): the `while` condition reads
the periapsis first — a reading `≥ 75000` exits normally without touching the
propellant; otherwise the body reads fuel and oxidizer and
`if current_fuel <= 0.1 or current_oxidizer <= 0.1: … fuel_empty = True;
break`.  Returns `(fuel_empty, fully-run iterations, exit snapshot)`, or
`none` if the trace runs out with the loop still spinning. -/
def circSplit : List Snapshot → Option (Bool × List Snapshot × Snapshot)
  | [] => none
  | s :: rest =>
    if 75000 ≤ s.periapsis then some (false, [], s)
    else if s.fuel ≤ 0.1 ∨ s.oxidizer ≤ 0.1 then some (true, [], s)
    else (circSplit rest).map (fun x => (x.1, s :: x.2.1, x.2.2))

/-- The running `target_pitch` variable of the powered-ascent loop
(lines 317-331): initialized from a pitch snapshot before the loop, then
decremented by 0.3 on every iteration whose polled pitch exceeds 15, left
unchanged otherwise.  Returns its value after the given iterations. -/
def targetAfter (tp : ℚ) : List Snapshot → ℚ
  | [] => tp
  | s :: rest => targetAfter (if 15 < s.pitch then tp - 0.3 else tp) rest

/-- The attitude command issued per powered-ascent iteration (lines 327-330):
on a polled pitch above 15 the autopilot is engaged and
`target_pitch_and_heading(target_pitch, heading)` is commanded with the
freshly decremented `target_pitch`; otherwise no command is issued. -/
def pitchEmits (tp : ℚ) : List Snapshot → List (Option (ℚ × ℚ))
  | [] => []
  | s :: rest =>
    if 15 < s.pitch then some (tp - 0.3, s.heading) :: pitchEmits (tp - 0.3) rest
    else none :: pitchEmits tp rest

/-- The actuator commands of the powered-ascent loop body, flattened
(each firing iteration contributes `ap.engage()` then the target command). -/
def ascentPitchCmds (tp : ℚ) : List Snapshot → List Cmd
  | [] => []
  | s :: rest =>
    if 15 < s.pitch then
      Cmd.apEngage :: Cmd.apTarget (tp - 0.3) s.heading :: ascentPitchCmds (tp - 0.3) rest
    else ascentPitchCmds tp rest

/-- `log_data` calls made by a polling loop: one per fully-run iteration on
which the data-log cadence has elapsed. -/
def dataTicks (l : List Snapshot) : List RecOp :=
  (l.filter (fun s => s.tick)).map (fun _ => RecOp.data)

/-- Ignition entry actions (lines 251-265): full throttle, staging, SAS on,
radial-out SAS mode. -/
def ignitionCmds : List Cmd :=
  [Cmd.throttle 1, Cmd.stage, Cmd.sasOn, Cmd.sasMode "radial"]

/-- The pitch commanded by the gravity-turn exit maneuver (line 306):
the source passes the literal 70 (its comment reads "90-20=70°"); the
measured pre-maneuver pitch is not read, hence the unused argument. -/
def gravityTurnCommandedPitch (_preManeuverPitch : ℚ) : ℚ := 70

/-- The gravity-turn exit sequence (lines 300-308): SAS off, autopilot
engage, `target_pitch_and_heading(70, 90)`, wait for completion, disengage —
all before the powered-ascent loop begins. -/
def gravityTurnExitCmds (preManeuverPitch : ℚ) : List Cmd :=
  [Cmd.sasOff, Cmd.apEngage,
   Cmd.apTarget (gravityTurnCommandedPitch preManeuverPitch) 90,
   Cmd.apWait, Cmd.apDisengage]

/-- Powered-ascent exit actions (lines 357-389): throttle to zero, autopilot
disengage, then the best-effort solar-panel deployment pass. -/
def ascentExitCmds : List Cmd :=
  [Cmd.throttle 0, Cmd.apDisengage, Cmd.deployPanels]

/-- Circularization-burn entry actions (lines 423-432): SAS on, prograde SAS
mode, full throttle. -/
def circEntryCmds : List Cmd :=
  [Cmd.sasOn, Cmd.sasMode "prograde", Cmd.throttle 1]

/-- The observable result of one mission run: phases visited in order,
actuator commands in order, flight-data-recorder operations, the
run-dependent event-log lines, the final outcome and the `fuel_empty` flag. -/
structure MissionLog where
  phases : List Phase
  cmds : List Cmd
  recOps : List RecOp
  events : List Event
  outcome : Outcome
  fuel_empty : Bool
deriving Repr, DecidableEq

/-- The observable output of a completed mission run, as a function of the
recorder flag, the gravity-turn exit snapshot `s1` (whose pitch initializes
`target_pitch`), the fully-run iterations `g1 g2 g3 g4` of the four polling
loops, the `fuel_empty` flag `fe` and the circularization exit snapshot
`s4` (at which the final orbital parameters are read). -/
def missionResult (hasRec : Bool) (s1 : Snapshot) (g1 g2 g3 g4 : List Snapshot)
    (fe : Bool) (s4 : Snapshot) : MissionLog :=
  { phases := [Phase.Ignition, Phase.GravityTurn,
      Phase.PoweredAscentToTargetApoapsis, Phase.CoastToApoapsis,
      Phase.CircularizationBurn] ++
      [if fe then Phase.Aborted else Phase.MissionSummary]
    cmds := ignitionCmds ++ gravityTurnExitCmds s1.pitch ++
      ascentPitchCmds s1.pitch g2 ++ ascentExitCmds ++ circEntryCmds ++
      [Cmd.throttle 0]
    recOps :=
      if hasRec then
        [RecOp.status "СТАРТ МИССИИ - РАКЕТА НА СТАРТОВОЙ ПЛОЩАДКЕ",
         RecOp.status "ЗАПУСК ДВИГАТЕЛЯ - ПОЛНЫЙ ГАЗ"] ++
        dataTicks g1 ++
        [RecOp.status "ДОСТИГНУТО 10 КМ - ГРАВИТАЦИОННЫЙ ПОВОРОТ"] ++
        dataTicks g2 ++
        [RecOp.status "ДОСТИГНУТ АПОАПСИС - ВЫКЛЮЧЕНИЕ ДВИГАТЕЛЯ",
         RecOp.status "РАЗВЕРТЫВАНИЕ СОЛНЕЧНЫХ ПАНЕЛЕЙ",
         RecOp.status "ОЖИДАНИЕ АПОАПСИСА 80 КМ"] ++
        dataTicks g3 ++
        [RecOp.status "НАЧАЛО ОРБИТАЛЬНОГО МАНЕВРА",
         RecOp.status "ВКЛЮЧЕНИЕ ДВИГАТЕЛЯ ДЛЯ ОРБИТАЛЬНОГО МАНЕВРА"] ++
        dataTicks (g4 ++ if fe then [s4] else []) ++
        [RecOp.status "ЗАВЕРШЕНИЕ МАНЕВРА", RecOp.status "ЗАВЕРШЕНИЕ МИССИИ",
         RecOp.close]
      else []
    events :=
      (if hasRec then [Event.recInitOk] else [Event.recInitWarn]) ++
      fuelAdvisories 0 (g2.map (fun s => s.fuel)) ++
      (if fe then [Event.fuelEmptyMsg] else []) ++
      [Event.outcomeMsg (classify fe s4.periapsis)] ++
      (if hasRec then [Event.dataSaved] else [])
    outcome := classify fe s4.periapsis
    fuel_empty := fe }

/-- The mission sequencer of `main` (lines 202-541) over a telemetry trace.
`hasRec` is whether the `FlightDataLogger` construction succeeded (line 204);
on failure the exception is caught, a warning is logged (line 207) and
`flight_data_logger` stays `None`, so every recorder call site — each guarded
by `if flight_data_logger` / `and flight_data_logger` — is skipped.

The four polling loops consume one snapshot per iteration:
gravity turn exits on the first altitude reading `≥ 10000`, powered ascent on
the first apoapsis reading `≥ 80000`, coast on the first altitude reading
`≥ 78000`, and the circularization loop per `circSplit`.  The `target_pitch`
variable is initialized from the pitch at the gravity-turn exit snapshot.
On an abort the `log_data` call of the aborting iteration has already run
(lines 450-453 precede the propellant check), hence the extra tick on abort.
The final orbital parameters are read at the circularization exit snapshot,
and the outcome is `classify fuel_empty final_periapsis`.  A trace that
leaves some loop spinning forever yields `none`. -/
def runMission (hasRec : Bool) (trace : List Snapshot) : Option MissionLog := do
  let (g1, s1, r1) ← pollUntil (fun s => 10000 ≤ s.altitude) trace
  let (g2, _s2, r2) ← pollUntil (fun s => 80000 ≤ s.apoapsis) r1
  let (g3, _s3, r3) ← pollUntil (fun s => 78000 ≤ s.altitude) r2
  let (fe, g4, s4) ← circSplit r3
  pure (missionResult hasRec s1 g1 g2 g3 g4 fe s4)

/-! ## Helper lemmas -/

theorem pitchEmits_length (tp : ℚ) (rs : List Snapshot) :
    (pitchEmits tp rs).length = rs.length := by
  induction rs generalizing tp with
  | nil => rfl
  | cons s rest ih => by_cases h : 15 < s.pitch <;> simp [pitchEmits, h, ih]

theorem pollUntil_append (p : Snapshot → Prop) [DecidablePred p]
    (pre : List Snapshot) (s : Snapshot) (rest : List Snapshot)
    (hpre : ∀ x ∈ pre, ¬ p x) (hs : p s) :
    pollUntil p (pre ++ s :: rest) = some (pre, s, rest) := by
  induction pre with
  | nil => simp [pollUntil, hs]
  | cons a l ih =>
    have ha : ¬ p a := hpre a (by simp)
    simp [pollUntil, ha, ih (fun x hx => hpre x (by simp [hx]))]

theorem circSplit_exit (pre : List Snapshot) (s : Snapshot) (rest : List Snapshot)
    (hpre : ∀ x ∈ pre, x.periapsis < 75000 ∧ 0.1 < x.fuel ∧ 0.1 < x.oxidizer)
    (hs : 75000 ≤ s.periapsis) :
    circSplit (pre ++ s :: rest) = some (false, pre, s) := by
  induction pre with
  | nil => simp [circSplit, hs]
  | cons a l ih =>
    obtain ⟨h1, h2, h3⟩ := hpre a (by simp)
    simp [circSplit, not_le.2 h1, not_le.2 h2, not_le.2 h3,
      ih (fun x hx => hpre x (by simp [hx]))]

theorem circSplit_abort (pre : List Snapshot) (s : Snapshot) (rest : List Snapshot)
    (hpre : ∀ x ∈ pre, x.periapsis < 75000 ∧ 0.1 < x.fuel ∧ 0.1 < x.oxidizer)
    (hp : s.periapsis < 75000) (hbad : s.fuel ≤ 0.1 ∨ s.oxidizer ≤ 0.1) :
    circSplit (pre ++ s :: rest) = some (true, pre, s) := by
  induction pre with
  | nil => simp [circSplit, not_le.2 hp, hbad]
  | cons a l ih =>
    obtain ⟨h1, h2, h3⟩ := hpre a (by simp)
    simp [circSplit, not_le.2 h1, not_le.2 h2, not_le.2 h3,
      ih (fun x hx => hpre x (by simp [hx]))]

/-! ## Claim theorems -/

/-- Claim C1: at mission end the outcome is a pure function of
`(fuel_empty, final periapsis)` agreeing with the spec section 4.4 decision
table everywhere, in particular at the boundary periapsis values
0, 69999, 70000, 73999, 74000, 76000, 76001. -/
theorem classify_matches_spec_table :
    (∀ (fe : Bool) (p : ℚ), classify fe p = classifySpecTable fe p)
  ∧ classify false 0 = Outcome.criticalSuborbital
  ∧ classify false 69999 = Outcome.suboptimalOrbit
  ∧ classify false 70000 = Outcome.successAcceptable
  ∧ classify false 73999 = Outcome.successAcceptable
  ∧ classify false 74000 = Outcome.successHighPrecision
  ∧ classify false 76000 = Outcome.successHighPrecision
  ∧ classify false 76001 = Outcome.successAcceptable
  ∧ classify true 0 = Outcome.failureRanDryNegativePeri
  ∧ classify true 70000 = Outcome.failureRanDryPositivePeri := by
  refine ⟨?_, by decide, by decide, by decide, by decide, by decide,
    by decide, by decide, by decide, by decide⟩
  intro fe p
  cases fe with
  | true =>
    rcases lt_or_le 0 p with hp | hp
    · simp [classify, classifySpecTable, hp]
    · simp [classify, classifySpecTable, not_lt.2 hp, hp]
  | false =>
    rcases le_or_lt 70000 p with h70 | h70
    · rcases le_or_lt 74000 p with h74 | h74
      · rcases le_or_lt p 76000 with h76 | h76
        · simp [classify, classifySpecTable, h70, h74, h76]
        · simp [classify, classifySpecTable, h70, h74, not_le.2 h76]
      · simp [classify, classifySpecTable, h70, not_le.2 h74]
    · rcases lt_or_le 0 p with hp | hp
      · simp [classify, classifySpecTable, not_le.2 h70, hp, h70]
      · simp [classify, classifySpecTable, not_le.2 h70, not_lt.2 hp]

/-- Claim C7 counterexample: the pitch commanded at the gravity-turn exit is
the constant 70, not "pre-maneuver pitch minus 20": at a pre-maneuver pitch
of 85 the claim would demand 65. -/
theorem gravity_turn_cmd_counterexample :
    ¬ gravityTurnCommandedPitch 85 = 85 - 20 := by
  norm_num [gravityTurnCommandedPitch]

/-- Claim C7 (amended): at the GravityTurn-to-PoweredAscent transition the
automatic SAS is disengaged first, a one-shot attitude-hold maneuver commands
the fixed pitch 70 (a 20-degree offset below the vertical 90, independent of
the measured pre-maneuver pitch) at heading 90, and the attitude hold is
disengaged last, before the powered-ascent loop begins. -/
theorem gravity_turn_fixed_offset (p : ℚ) :
    gravityTurnExitCmds p =
      [Cmd.sasOff, Cmd.apEngage, Cmd.apTarget 70 90, Cmd.apWait, Cmd.apDisengage]
  ∧ gravityTurnCommandedPitch p = 90 - 20
  ∧ (gravityTurnExitCmds p).head? = some Cmd.sasOff
  ∧ (gravityTurnExitCmds p).getLast? = some Cmd.apDisengage := by
  refine ⟨rfl, by norm_num [gravityTurnCommandedPitch], rfl, rfl⟩

/-- Claim C8: `DualLogger.log` emits one identical line on the console and in
the event file — timestamp-prefixed when `show_time` is true, the raw message
otherwise — and `DualLogger.section` emits exactly three lines (border,
upper-cased title, border), none timestamp-prefixed. -/
theorem dual_logger_contract (ts msg title : String) :
    dualLog ts msg true = ("[" ++ ts ++ "] " ++ msg, "[" ++ ts ++ "] " ++ msg)
  ∧ dualLog ts msg false = (msg, msg)
  ∧ (dualLog ts msg true).1 = (dualLog ts msg true).2
  ∧ sectionOut ts title =
      [(sectionBorder, sectionBorder),
       (title.map Char.toUpper, title.map Char.toUpper),
       (sectionBorder, sectionBorder)]
  ∧ (sectionOut ts title).length = 3 := by
  exact ⟨rfl, rfl, rfl, rfl, rfl⟩

/-- Claim C6: every data row `log_data` appends has exactly as many fields as
the 11 column headers written at initialization (field `i` holding the
quantity named by header `i`), and if any telemetry or resource read raises,
the row is skipped wholesale: nothing is appended and nothing propagates. -/
theorem logData_row_shape :
    (∀ (r : SampleReads) (row : List ℚ), logData r = some row →
        row.length = flightDataHeaders.length)
  ∧ flightDataHeaders.length = 11
  ∧ (∀ r : SampleReads,
      (r.altitude = none ∨ r.speed = none ∨ r.v_speed = none ∨
       r.h_speed = none ∨ r.apoapsis = none ∨ r.periapsis = none ∨
       r.pitch = none ∨ r.heading = none ∨ r.fuel = none ∨
       r.oxidizer = none) → logData r = none) := by
  refine ⟨?_, rfl, ?_⟩
  · intro r row h
    unfold logData at h
    split at h
    · have hrow := Option.some.inj h
      subst hrow
      rfl
    · exact absurd h (by simp)
  · intro r hnone
    unfold logData
    split
    · rcases hnone with h | h | h | h | h | h | h | h | h | h <;> simp_all
    · rfl

/-- Claim C6 witness: a sample whose reads all succeed yields an 11-field
row; a sample whose pitch read raises yields no row at all. -/
theorem logData_row_shape_witness :
    ([(0:ℚ), 12000/1000, 300, 250, 160, 81000/1000, 30000/1000, 45, 90, 120, 140].length
        = flightDataHeaders.length)
  ∧ logData ⟨0, some 12000, some 300, some 250, some 160, some 81000,
      some 30000, none, some 90, some 120, some 140⟩ = none := by
  constructor
  · exact logData_row_shape.1
      ⟨0, some 12000, some 300, some 250, some 160, some 81000, some 30000,
        some 45, some 90, some 120, some 140⟩
      [(0:ℚ), 12000/1000, 300, 250, 160, 81000/1000, 30000/1000, 45, 90, 120, 140]
      rfl
  · exact logData_row_shape.2.2
      ⟨0, some 12000, some 300, some 250, some 160, some 81000, some 30000,
        none, some 90, some 120, some 140⟩
      (by simp)

theorem flatten_map_nil {α β : Type} (l : List α) :
    (l.map (fun _ => ([] : List β))).flatten = [] := by
  induction l with
  | nil => rfl
  | cons a t ih => simp [ih]

theorem fuelAdvisories_cons (w : Nat) (f : ℚ) (fs : List ℚ) :
    fuelAdvisories w (f :: fs) =
      (fuelWarnStep w f).2 ++ fuelAdvisories (fuelWarnStep w f).1 fs := by
  simp [fuelAdvisories, fuelWarnEmits]

theorem fuelWarnEmits_none_high (pre rest : List ℚ)
    (h : ∀ f ∈ pre, ¬ f < 100) :
    fuelWarnEmits 0 (pre ++ rest) =
      pre.map (fun _ => []) ++ fuelWarnEmits 0 rest := by
  induction pre with
  | nil => rfl
  | cons a l ih =>
    have ha : ¬ a < 100 := h a (by simp)
    simp [fuelWarnEmits, fuelWarnStep, ha, ih (fun f hf => h f (by simp [hf]))]

theorem fuelWarnEmits_none_mid (mid rest : List ℚ)
    (h : ∀ f ∈ mid, ¬ f < 50) :
    fuelWarnEmits 1 (mid ++ rest) =
      mid.map (fun _ => []) ++ fuelWarnEmits 1 rest := by
  induction mid with
  | nil => rfl
  | cons a l ih =>
    have ha : ¬ a < 50 := h a (by simp)
    simp [fuelWarnEmits, fuelWarnStep, ha, ih (fun f hf => h f (by simp [hf]))]

theorem fuelWarnEmits_done (fs : List ℚ) :
    fuelWarnEmits 2 fs = fs.map (fun _ => []) := by
  induction fs with
  | nil => rfl
  | cons a l ih => simp [fuelWarnEmits, fuelWarnStep, ih]

theorem fuelAdvisories_shape (gs : List ℚ) :
    fuelAdvisories 2 gs = []
  ∧ (fuelAdvisories 1 gs = [] ∨ ∃ b, fuelAdvisories 1 gs = [Event.veryLowFuel b])
  ∧ (fuelAdvisories 0 gs = [] ∨
      (∃ a, fuelAdvisories 0 gs = [Event.lowFuel a]) ∨
      ∃ a b, fuelAdvisories 0 gs = [Event.lowFuel a, Event.veryLowFuel b]) := by
  induction gs with
  | nil => exact ⟨rfl, Or.inl rfl, Or.inl rfl⟩
  | cons f l ih =>
    obtain ⟨ih2, ih1, ih0⟩ := ih
    refine ⟨?_, ?_, ?_⟩
    · rw [fuelAdvisories_cons]
      have hs : fuelWarnStep 2 f = (2, []) := by simp [fuelWarnStep]
      rw [hs]
      simpa using ih2
    · rw [fuelAdvisories_cons]
      by_cases h : f < 50
      · have hs : fuelWarnStep 1 f = (2, [Event.veryLowFuel f]) := by
          simp [fuelWarnStep, h]
        rw [hs]
        right
        exact ⟨f, by simp [ih2]⟩
      · have hs : fuelWarnStep 1 f = (1, []) := by simp [fuelWarnStep, h]
        rw [hs]
        simpa using ih1
    · rw [fuelAdvisories_cons]
      by_cases h : f < 100
      · have hs : fuelWarnStep 0 f = (1, [Event.lowFuel f]) := by
          simp [fuelWarnStep, h]
        rw [hs]
        rcases ih1 with h1 | ⟨b, h1⟩
        · right; left; exact ⟨f, by simp [h1]⟩
        · right; right; exact ⟨f, b, by simp [h1]⟩
      · have hs : fuelWarnStep 0 f = (0, []) := by simp [fuelWarnStep, h]
        rw [hs]
        simpa using ih0

/-- Claim C2 counterexample: feeding the single reading 40 — a reading
strictly below 50, and the first one — emits only the low-propellant
advisory, not the stronger one: the `elif` of lines 346-351 cannot fire both
thresholds from one reading, so the stronger advisory is not emitted on the
first reading strictly below 50. -/
theorem fuel_advisories_counterexample :
    (40:ℚ) < 50 ∧ fuelAdvisories 0 [40] = [Event.lowFuel 40] :=
  ⟨by decide, by decide⟩

/-- Claim C2 (amended): during powered ascent each advisory fires at most
once and in order; the low-propellant advisory fires exactly on the first
reading strictly below 100, and the stronger advisory fires exactly on the
first reading strictly below 50 that comes strictly after the reading which
triggered the low advisory (a first reading already below 50 triggers only
the low advisory).  Feeding [150, 90, 40] yields exactly the two advisories,
in order. -/
theorem fuel_advisories_edge_triggered
    (pre : List ℚ) (x : ℚ) (mid : List ℚ) (y : ℚ) (post : List ℚ)
    (hpre : ∀ f ∈ pre, ¬ f < 100) (hx : x < 100)
    (hmid : ∀ f ∈ mid, ¬ f < 50) (hy : y < 50) :
    fuelWarnEmits 0 (pre ++ x :: (mid ++ y :: post)) =
      pre.map (fun _ => []) ++ [Event.lowFuel x] ::
        (mid.map (fun _ => []) ++ [Event.veryLowFuel y] :: post.map (fun _ => []))
  ∧ fuelAdvisories 0 (pre ++ x :: (mid ++ y :: post)) =
      [Event.lowFuel x, Event.veryLowFuel y]
  ∧ ∀ gs : List ℚ,
      fuelAdvisories 0 gs = [] ∨
      (∃ a, fuelAdvisories 0 gs = [Event.lowFuel a]) ∨
      ∃ a b, fuelAdvisories 0 gs = [Event.lowFuel a, Event.veryLowFuel b] := by
  have hstep0 : fuelWarnStep 0 x = (1, [Event.lowFuel x]) := by
    simp [fuelWarnStep, hx]
  have hstep1 : fuelWarnStep 1 y = (2, [Event.veryLowFuel y]) := by
    simp [fuelWarnStep, hy]
  have hemits : fuelWarnEmits 0 (pre ++ x :: (mid ++ y :: post)) =
      pre.map (fun _ => []) ++ [Event.lowFuel x] ::
        (mid.map (fun _ => []) ++ [Event.veryLowFuel y] ::
          post.map (fun _ => [])) := by
    rw [fuelWarnEmits_none_high pre _ hpre]
    congr 1
    show fuelWarnEmits 0 (x :: (mid ++ y :: post)) = _
    rw [fuelWarnEmits, hstep0]
    rw [fuelWarnEmits_none_mid mid _ hmid]
    congr 2
    show fuelWarnEmits 1 (y :: post) = _
    rw [fuelWarnEmits, hstep1, fuelWarnEmits_done]
  refine ⟨hemits, ?_, fun gs => (fuelAdvisories_shape gs).2.2⟩
  rw [fuelAdvisories, hemits]
  simp [flatten_map_nil]

/-- Claim C2 witness: the readings [150, 90, 40] emit nothing on 150, the
low advisory on 90 (first reading below 100) and the stronger advisory on 40
(first subsequent reading below 50): exactly two advisories, in order. -/
theorem fuel_advisories_edge_triggered_witness :
    (∀ f ∈ [(150:ℚ)], ¬ f < 100) ∧ (90:ℚ) < 100 ∧ (40:ℚ) < 50
  ∧ fuelWarnEmits 0 [150, 90, 40] =
      [[], [Event.lowFuel 90], [Event.veryLowFuel 40]]
  ∧ fuelAdvisories 0 [150, 90, 40] =
      [Event.lowFuel 90, Event.veryLowFuel 40] := by
  have h := fuel_advisories_edge_triggered [150] 90 [] 40 []
    (by decide) (by decide) (by decide) (by decide)
  exact ⟨by decide, by decide, by decide, h.1, h.2.1⟩

theorem targetAfter_append (tp : ℚ) (l1 l2 : List Snapshot) :
    targetAfter tp (l1 ++ l2) = targetAfter (targetAfter tp l1) l2 := by
  induction l1 generalizing tp with
  | nil => rfl
  | cons a t ih => simp [targetAfter, ih]

theorem pitchEmits_append (tp : ℚ) (l1 l2 : List Snapshot) :
    pitchEmits tp (l1 ++ l2) =
      pitchEmits tp l1 ++ pitchEmits (targetAfter tp l1) l2 := by
  induction l1 generalizing tp with
  | nil => rfl
  | cons a t ih =>
    by_cases h : 15 < a.pitch <;> simp [pitchEmits, targetAfter, h, ih]

theorem targetAfter_count (tp : ℚ) (rs : List Snapshot) :
    targetAfter tp rs =
      tp - 0.3 * (rs.countP (fun s => decide (15 < s.pitch)) : ℚ) := by
  induction rs generalizing tp with
  | nil => simp [targetAfter]
  | cons a t ih =>
    by_cases h : 15 < a.pitch
    · simp only [targetAfter, if_pos h]
      rw [ih, List.countP_cons]
      simp [h]
      ring
    · simp only [targetAfter, if_neg h]
      rw [ih, List.countP_cons]
      simp [h]

theorem targetAfter_all_high (tp : ℚ) (rs : List Snapshot)
    (h : ∀ s ∈ rs, 15 < s.pitch) :
    targetAfter tp rs = tp - 0.3 * (rs.length : ℚ) := by
  rw [targetAfter_count,
    List.countP_eq_length.2 (fun s hs => by simp [h s hs])]

/-- Claim C5: in the powered-ascent loop, at the iteration that polls
snapshot `s` (after the iterations of `pre`), a polled pitch above 15
decrements the running `target_pitch` by exactly 0.3 and re-commands the
attitude hold with exactly that new target and the polled heading, while a
polled pitch at most 15 leaves `target_pitch` unchanged and issues no
attitude command. -/
theorem ascent_pitch_step (tp : ℚ) (pre post : List Snapshot) (s : Snapshot) :
    (15 < s.pitch →
        targetAfter tp (pre ++ [s]) = targetAfter tp pre - 0.3
      ∧ pitchEmits tp (pre ++ s :: post) =
          pitchEmits tp pre ++
            some (targetAfter tp (pre ++ [s]), s.heading) ::
              pitchEmits (targetAfter tp (pre ++ [s])) post)
  ∧ (s.pitch ≤ 15 →
        targetAfter tp (pre ++ [s]) = targetAfter tp pre
      ∧ pitchEmits tp (pre ++ s :: post) =
          pitchEmits tp pre ++ none :: pitchEmits (targetAfter tp pre) post) := by
  constructor
  · intro h
    have ht : targetAfter tp (pre ++ [s]) = targetAfter tp pre - 0.3 := by
      rw [targetAfter_append]
      simp [targetAfter, h]
    refine ⟨ht, ?_⟩
    rw [pitchEmits_append, ht]
    simp [pitchEmits, h]
  · intro h
    have hnot : ¬ 15 < s.pitch := not_lt.2 h
    have ht : targetAfter tp (pre ++ [s]) = targetAfter tp pre := by
      rw [targetAfter_append]
      simp [targetAfter, hnot]
    refine ⟨ht, ?_⟩
    rw [pitchEmits_append]
    simp [pitchEmits, hnot]

/-- Claim C5 witness: with `target_pitch` at 85, one iteration polling pitch
20 and heading 90 decrements the target to 84.7 and issues exactly the
command (84.7, 90). -/
theorem ascent_pitch_step_witness :
    15 < (mkSnap 11000 30000 0 20 90 300 300 false).pitch
  ∧ (targetAfter 85 ([] ++ [mkSnap 11000 30000 0 20 90 300 300 false]) =
        targetAfter 85 [] - 0.3
    ∧ pitchEmits 85 ([] ++ mkSnap 11000 30000 0 20 90 300 300 false :: []) =
        pitchEmits 85 [] ++
          some (targetAfter 85 ([] ++ [mkSnap 11000 30000 0 20 90 300 300 false]),
              (mkSnap 11000 30000 0 20 90 300 300 false).heading) ::
            pitchEmits
              (targetAfter 85 ([] ++ [mkSnap 11000 30000 0 20 90 300 300 false]))
              []) :=
  ⟨by decide,
    (ascent_pitch_step 85 [] [] (mkSnap 11000 30000 0 20 90 300 300 false)).1
      (by decide)⟩

/-- Claim C10: the commanded target pitch is open-loop — after any trace it
equals the initial pitch snapshot minus 0.3 times the number of iterations
whose polled pitch exceeded 15, with no re-synchronization to the measured
pitch and no lower clamp; over a trace whose polled pitch always exceeds 15
it is the snapshot minus 0.3 times the trace length, and it eventually drops
below any bound (in particular below 15 and below 0). -/
theorem ascent_pitch_open_loop (tp : ℚ) (rs : List Snapshot)
    (hall : ∀ s ∈ rs, 15 < s.pitch) :
    targetAfter tp rs = tp - 0.3 * (rs.length : ℚ)
  ∧ (∀ (tp0 : ℚ) (gs : List Snapshot),
      targetAfter tp0 gs =
        tp0 - 0.3 * (gs.countP (fun s => decide (15 < s.pitch)) : ℚ))
  ∧ ∀ B : ℚ, ∃ n : Nat,
      targetAfter tp (List.replicate n (mkSnap 0 0 0 20 90 200 200 false)) < B := by
  refine ⟨targetAfter_all_high tp rs hall,
    fun tp0 gs => targetAfter_count tp0 gs, ?_⟩
  intro B
  obtain ⟨n, hn⟩ := exists_nat_gt ((tp - B) / 0.3)
  refine ⟨n, ?_⟩
  have hrep := targetAfter_all_high tp
    (List.replicate n (mkSnap 0 0 0 20 90 200 200 false))
    (fun s hs => by rw [List.eq_of_mem_replicate hs]; norm_num [mkSnap])
  rw [List.length_replicate] at hrep
  rw [hrep]
  have h3 : (0:ℚ) < 0.3 := by norm_num
  have hlt := (div_lt_iff₀ h3).1 hn
  linarith

/-- Claim C10 witness: two iterations with pitch above 15 take the target
from 85 to 85 - 0.6. -/
theorem ascent_pitch_open_loop_witness :
    (∀ s ∈ [mkSnap 11000 30000 0 20 90 300 300 false,
        mkSnap 12000 31000 0 18 90 290 290 false], 15 < s.pitch)
  ∧ targetAfter 85 [mkSnap 11000 30000 0 20 90 300 300 false,
      mkSnap 12000 31000 0 18 90 290 290 false] = 85 - 0.3 * 2 := by
  refine ⟨by decide, ?_⟩
  have h := (ascent_pitch_open_loop 85
    [mkSnap 11000 30000 0 20 90 300 300 false,
     mkSnap 12000 31000 0 18 90 290 290 false] (by decide)).1
  simpa using h

theorem runMission_inv (hr : Bool) (trace : List Snapshot) (log : MissionLog)
    (h : runMission hr trace = some log) :
    ∃ g1 s1 r1 g2 s2 r2 g3 s3 r3 fe g4 s4,
      pollUntil (fun s => 10000 ≤ s.altitude) trace = some (g1, s1, r1)
    ∧ pollUntil (fun s => 80000 ≤ s.apoapsis) r1 = some (g2, s2, r2)
    ∧ pollUntil (fun s => 78000 ≤ s.altitude) r2 = some (g3, s3, r3)
    ∧ circSplit r3 = some (fe, g4, s4)
    ∧ log = missionResult hr s1 g1 g2 g3 g4 fe s4 := by
  unfold runMission at h
  cases hA : pollUntil (fun s => 10000 ≤ s.altitude) trace with
  | none => rw [hA] at h; simp at h
  | some x1 =>
    rw [hA] at h
    obtain ⟨g1, s1, r1⟩ := x1
    simp only [Option.bind_eq_bind, Option.some_bind] at h
    cases hB : pollUntil (fun s => 80000 ≤ s.apoapsis) r1 with
    | none => rw [hB] at h; simp at h
    | some x2 =>
      rw [hB] at h
      obtain ⟨g2, s2, r2⟩ := x2
      simp only [Option.some_bind] at h
      cases hC : pollUntil (fun s => 78000 ≤ s.altitude) r2 with
      | none => rw [hC] at h; simp at h
      | some x3 =>
        rw [hC] at h
        obtain ⟨g3, s3, r3⟩ := x3
        simp only [Option.some_bind] at h
        cases hD : circSplit r3 with
        | none => rw [hD] at h; simp at h
        | some x4 =>
          rw [hD] at h
          obtain ⟨fe, g4, s4⟩ := x4
          simp only [Option.some_bind, Option.pure_def, Option.some_inj] at h
          exact ⟨g1, s1, r1, g2, s2, r2, g3, s3, r3, fe, g4, s4,
            rfl, hB, hC, hD, h.symm⟩

theorem runMission_eq (hr : Bool) (trace r1 r2 r3 : List Snapshot)
    (g1 g2 g3 g4 : List Snapshot) (s1 s2 s3 s4 : Snapshot) (fe : Bool)
    (hA : pollUntil (fun s => 10000 ≤ s.altitude) trace = some (g1, s1, r1))
    (hB : pollUntil (fun s => 80000 ≤ s.apoapsis) r1 = some (g2, s2, r2))
    (hC : pollUntil (fun s => 78000 ≤ s.altitude) r2 = some (g3, s3, r3))
    (hD : circSplit r3 = some (fe, g4, s4)) :
    runMission hr trace = some (missionResult hr s1 g1 g2 g3 g4 fe s4) := by
  unfold runMission
  rw [hA]
  simp only [Option.bind_eq_bind, Option.some_bind]
  rw [hB]
  simp only [Option.some_bind]
  rw [hC]
  simp only [Option.some_bind]
  rw [hD]
  simp only [Option.some_bind, Option.pure_def]

/-- Claim C3: in the circularization loop a first polled propellant reading
at or below 0.1 (fuel or oxidizer, with the periapsis still short of 75000)
aborts on exactly that reading — `fuel_empty` becomes true, the preceding
nominal iterations are the only ones run, and nothing after the aborting
reading is polled; and for every completed run, aborted or not, the final
actuator command is setting the throttle to the zero value, with the last
phase `Aborted` exactly when `fuel_empty` is set and `MissionSummary`
otherwise. -/
theorem circ_abort_and_throttle
    (t4 rest : List Snapshot) (s4 : Snapshot)
    (hnom : ∀ s ∈ t4, s.periapsis < 75000 ∧ 0.1 < s.fuel ∧ 0.1 < s.oxidizer)
    (hp : s4.periapsis < 75000) (hbad : s4.fuel ≤ 0.1 ∨ s4.oxidizer ≤ 0.1) :
    circSplit (t4 ++ s4 :: rest) = some (true, t4, s4)
  ∧ ∀ (hr : Bool) (trace : List Snapshot) (log : MissionLog),
      runMission hr trace = some log →
        log.cmds.getLast? = some (Cmd.throttle 0)
      ∧ (log.fuel_empty = true → log.phases.getLast? = some Phase.Aborted)
      ∧ (log.fuel_empty = false →
          log.phases.getLast? = some Phase.MissionSummary) := by
  refine ⟨circSplit_abort t4 s4 rest hnom hp hbad, ?_⟩
  intro hr trace log h
  obtain ⟨g1, s1, r1, g2, s2, r2, g3, s3, r3, fe, g4, sx,
    _, _, _, _, hlog⟩ := runMission_inv hr trace log h
  subst hlog
  refine ⟨?_, ?_, ?_⟩
  · simp [missionResult, List.getLast?_append_cons]
  · intro hfe
    have hfe' : fe = true := by simpa [missionResult] using hfe
    subst hfe'
    simp [missionResult, List.getLast?_append_cons]
  · intro hfe
    have hfe' : fe = false := by simpa [missionResult] using hfe
    subst hfe'
    simp [missionResult, List.getLast?_append_cons]

/-- Claim C3 witness: a first circularization reading with fuel exactly 0.1
(periapsis 40000) aborts at once; the following reading with fuel 0 is never
polled. -/
theorem circ_abort_and_throttle_witness :
    ((mkSnap 77000 80500 40000 0 90 0.1 50 false).periapsis < 75000)
  ∧ ((mkSnap 77000 80500 40000 0 90 0.1 50 false).fuel ≤ 0.1 ∨
      (mkSnap 77000 80500 40000 0 90 0.1 50 false).oxidizer ≤ 0.1)
  ∧ circSplit ([] ++ mkSnap 77000 80500 40000 0 90 0.1 50 false ::
        [mkSnap 77000 80500 40000 0 90 0 50 false]) =
      some (true, [], mkSnap 77000 80500 40000 0 90 0.1 50 false)
  ∧ (missionResult true (mkSnap 10000 30000 0 45 90 300 300 false)
      [] [] [] [] true
      (mkSnap 77000 80500 40000 0 90 0.1 50 false)).cmds.getLast? =
      some (Cmd.throttle 0)
  ∧ (missionResult true (mkSnap 10000 30000 0 45 90 300 300 false)
      [] [] [] [] true
      (mkSnap 77000 80500 40000 0 90 0.1 50 false)).phases.getLast? =
      some Phase.Aborted := by
  have habort := circ_abort_and_throttle []
    [mkSnap 77000 80500 40000 0 90 0 50 false]
    (mkSnap 77000 80500 40000 0 90 0.1 50 false)
    (by simp) (by decide) (by norm_num [mkSnap])
  have hA : pollUntil (fun s => 10000 ≤ s.altitude)
      [mkSnap 10000 30000 0 45 90 300 300 false,
       mkSnap 30000 80000 0 10 90 200 200 false,
       mkSnap 78000 80500 0 5 90 180 180 false,
       mkSnap 77000 80500 40000 0 90 0.1 50 false,
       mkSnap 77000 80500 40000 0 90 0 50 false] =
      some ([], mkSnap 10000 30000 0 45 90 300 300 false,
        [mkSnap 30000 80000 0 10 90 200 200 false,
         mkSnap 78000 80500 0 5 90 180 180 false,
         mkSnap 77000 80500 40000 0 90 0.1 50 false,
         mkSnap 77000 80500 40000 0 90 0 50 false]) := by
    norm_num [pollUntil, mkSnap]
  have hB : pollUntil (fun s => 80000 ≤ s.apoapsis)
      [mkSnap 30000 80000 0 10 90 200 200 false,
       mkSnap 78000 80500 0 5 90 180 180 false,
       mkSnap 77000 80500 40000 0 90 0.1 50 false,
       mkSnap 77000 80500 40000 0 90 0 50 false] =
      some ([], mkSnap 30000 80000 0 10 90 200 200 false,
        [mkSnap 78000 80500 0 5 90 180 180 false,
         mkSnap 77000 80500 40000 0 90 0.1 50 false,
         mkSnap 77000 80500 40000 0 90 0 50 false]) := by
    norm_num [pollUntil, mkSnap]
  have hC : pollUntil (fun s => 78000 ≤ s.altitude)
      [mkSnap 78000 80500 0 5 90 180 180 false,
       mkSnap 77000 80500 40000 0 90 0.1 50 false,
       mkSnap 77000 80500 40000 0 90 0 50 false] =
      some ([], mkSnap 78000 80500 0 5 90 180 180 false,
        [mkSnap 77000 80500 40000 0 90 0.1 50 false,
         mkSnap 77000 80500 40000 0 90 0 50 false]) := by
    norm_num [pollUntil, mkSnap]
  have hrun := runMission_eq true
    [mkSnap 10000 30000 0 45 90 300 300 false,
     mkSnap 30000 80000 0 10 90 200 200 false,
     mkSnap 78000 80500 0 5 90 180 180 false,
     mkSnap 77000 80500 40000 0 90 0.1 50 false,
     mkSnap 77000 80500 40000 0 90 0 50 false]
    [mkSnap 30000 80000 0 10 90 200 200 false,
     mkSnap 78000 80500 0 5 90 180 180 false,
     mkSnap 77000 80500 40000 0 90 0.1 50 false,
     mkSnap 77000 80500 40000 0 90 0 50 false]
    [mkSnap 78000 80500 0 5 90 180 180 false,
     mkSnap 77000 80500 40000 0 90 0.1 50 false,
     mkSnap 77000 80500 40000 0 90 0 50 false]
    [mkSnap 77000 80500 40000 0 90 0.1 50 false,
     mkSnap 77000 80500 40000 0 90 0 50 false]
    [] [] [] []
    (mkSnap 10000 30000 0 45 90 300 300 false)
    (mkSnap 30000 80000 0 10 90 200 200 false)
    (mkSnap 78000 80500 0 5 90 180 180 false)
    (mkSnap 77000 80500 40000 0 90 0.1 50 false) true
    hA hB hC habort.1
  have h2 := habort.2 true
    [mkSnap 10000 30000 0 45 90 300 300 false,
     mkSnap 30000 80000 0 10 90 200 200 false,
     mkSnap 78000 80500 0 5 90 180 180 false,
     mkSnap 77000 80500 40000 0 90 0.1 50 false,
     mkSnap 77000 80500 40000 0 90 0 50 false]
    (missionResult true (mkSnap 10000 30000 0 45 90 300 300 false)
      [] [] [] [] true (mkSnap 77000 80500 40000 0 90 0.1 50 false)) hrun
  exact ⟨by decide, by norm_num [mkSnap], habort.1, h2.1, h2.2.1 rfl⟩

/-- Claim C4: on every trace whose gravity-turn prefix stays below altitude
10000 until a reading at or above it, whose powered ascent stays below
apoapsis 80000 until a reading at or above it, whose coast stays below
altitude 78000 until a reading at or above it, and whose circularization
iterations stay nominal (periapsis below 75000, propellant above 0.1) until a
periapsis reading at or above 75000, the mission visits exactly the six
states Ignition, GravityTurn, PoweredAscentToTargetApoapsis, CoastToApoapsis,
CircularizationBurn, MissionSummary in that order, each loop exiting on the
first qualifying reading, and the final classification is a success
outcome. -/
theorem mission_nominal_six_phases (hr : Bool)
    (t1 t2 t3 t4 rest : List Snapshot) (s1 s2 s3 s4 : Snapshot)
    (h1 : ∀ s ∈ t1, s.altitude < 10000) (he1 : 10000 ≤ s1.altitude)
    (h2 : ∀ s ∈ t2, s.apoapsis < 80000) (he2 : 80000 ≤ s2.apoapsis)
    (h3 : ∀ s ∈ t3, s.altitude < 78000) (he3 : 78000 ≤ s3.altitude)
    (h4 : ∀ s ∈ t4, s.periapsis < 75000 ∧ 0.1 < s.fuel ∧ 0.1 < s.oxidizer)
    (he4 : 75000 ≤ s4.periapsis) :
    pollUntil (fun s => 10000 ≤ s.altitude)
        (t1 ++ s1 :: (t2 ++ s2 :: (t3 ++ s3 :: (t4 ++ s4 :: rest)))) =
      some (t1, s1, t2 ++ s2 :: (t3 ++ s3 :: (t4 ++ s4 :: rest)))
  ∧ pollUntil (fun s => 80000 ≤ s.apoapsis)
        (t2 ++ s2 :: (t3 ++ s3 :: (t4 ++ s4 :: rest))) =
      some (t2, s2, t3 ++ s3 :: (t4 ++ s4 :: rest))
  ∧ pollUntil (fun s => 78000 ≤ s.altitude) (t3 ++ s3 :: (t4 ++ s4 :: rest)) =
      some (t3, s3, t4 ++ s4 :: rest)
  ∧ circSplit (t4 ++ s4 :: rest) = some (false, t4, s4)
  ∧ ∃ log,
      runMission hr
          (t1 ++ s1 :: (t2 ++ s2 :: (t3 ++ s3 :: (t4 ++ s4 :: rest)))) =
        some log
      ∧ log.phases = [Phase.Ignition, Phase.GravityTurn,
          Phase.PoweredAscentToTargetApoapsis, Phase.CoastToApoapsis,
          Phase.CircularizationBurn, Phase.MissionSummary]
      ∧ log.fuel_empty = false
      ∧ log.outcome = classify false s4.periapsis
      ∧ log.outcome.isSuccess = true := by
  have hA := pollUntil_append (fun s => 10000 ≤ s.altitude) t1 s1
    (t2 ++ s2 :: (t3 ++ s3 :: (t4 ++ s4 :: rest)))
    (fun x hx => not_le.2 (h1 x hx)) he1
  have hB := pollUntil_append (fun s => 80000 ≤ s.apoapsis) t2 s2
    (t3 ++ s3 :: (t4 ++ s4 :: rest)) (fun x hx => not_le.2 (h2 x hx)) he2
  have hC := pollUntil_append (fun s => 78000 ≤ s.altitude) t3 s3
    (t4 ++ s4 :: rest) (fun x hx => not_le.2 (h3 x hx)) he3
  have hD := circSplit_exit t4 s4 rest h4 he4
  have hrun := runMission_eq hr
    (t1 ++ s1 :: (t2 ++ s2 :: (t3 ++ s3 :: (t4 ++ s4 :: rest))))
    (t2 ++ s2 :: (t3 ++ s3 :: (t4 ++ s4 :: rest)))
    (t3 ++ s3 :: (t4 ++ s4 :: rest)) (t4 ++ s4 :: rest)
    t1 t2 t3 t4 s1 s2 s3 s4 false hA hB hC hD
  refine ⟨hA, hB, hC, hD,
    missionResult hr s1 t1 t2 t3 t4 false s4, hrun, ?_, rfl, rfl, ?_⟩
  · simp [missionResult]
  · have h70 : (70000:ℚ) ≤ s4.periapsis := by linarith
    show (classify false s4.periapsis).isSuccess = true
    by_cases hhi : 74000 ≤ s4.periapsis ∧ s4.periapsis ≤ 76000
    · simp [classify, h70, hhi, Outcome.isSuccess]
    · simp [classify, h70, hhi, Outcome.isSuccess]

/-- Claim C4 witness: the four-reading trace exiting each loop at once —
altitude 10000, apoapsis 80000, altitude 78000, periapsis 75000 with ample
propellant — visits the six states in order and classifies as a success. -/
theorem mission_nominal_six_phases_witness :
    (10000:ℚ) ≤ (mkSnap 10000 30000 0 45 90 300 300 false).altitude
  ∧ (80000:ℚ) ≤ (mkSnap 30000 80000 0 10 90 200 200 false).apoapsis
  ∧ (78000:ℚ) ≤ (mkSnap 78000 80500 0 5 90 180 180 false).altitude
  ∧ (75000:ℚ) ≤ (mkSnap 77000 80500 75000 0 90 150 150 false).periapsis
  ∧ ∃ log,
      runMission true
          ([] ++ mkSnap 10000 30000 0 45 90 300 300 false ::
            ([] ++ mkSnap 30000 80000 0 10 90 200 200 false ::
              ([] ++ mkSnap 78000 80500 0 5 90 180 180 false ::
                ([] ++ mkSnap 77000 80500 75000 0 90 150 150 false :: [])))) =
        some log
      ∧ log.phases = [Phase.Ignition, Phase.GravityTurn,
          Phase.PoweredAscentToTargetApoapsis, Phase.CoastToApoapsis,
          Phase.CircularizationBurn, Phase.MissionSummary]
      ∧ log.fuel_empty = false
      ∧ log.outcome =
          classify false (mkSnap 77000 80500 75000 0 90 150 150 false).periapsis
      ∧ log.outcome.isSuccess = true := by
  refine ⟨by decide, by decide, by decide, by decide, ?_⟩
  exact (mission_nominal_six_phases true [] [] [] [] []
    (mkSnap 10000 30000 0 45 90 300 300 false)
    (mkSnap 30000 80000 0 10 90 200 200 false)
    (mkSnap 78000 80500 0 5 90 180 180 false)
    (mkSnap 77000 80500 75000 0 90 150 150 false)
    (by simp) (by decide) (by simp) (by decide) (by simp) (by decide)
    (by simp) (by decide)).2.2.2.2

theorem runMission_indep (t : List Snapshot) :
    (runMission true t = none ∧ runMission false t = none) ∨
    ∃ g1 s1 g2 g3 g4 fe s4,
      runMission true t = some (missionResult true s1 g1 g2 g3 g4 fe s4) ∧
      runMission false t = some (missionResult false s1 g1 g2 g3 g4 fe s4) := by
  cases hA : pollUntil (fun s => 10000 ≤ s.altitude) t with
  | none =>
    left
    constructor <;> (unfold runMission; rw [hA]; rfl)
  | some x1 =>
    obtain ⟨g1, s1, r1⟩ := x1
    cases hB : pollUntil (fun s => 80000 ≤ s.apoapsis) r1 with
    | none =>
      left
      constructor <;>
        (unfold runMission; rw [hA];
         simp only [Option.bind_eq_bind, Option.some_bind]; rw [hB]; rfl)
    | some x2 =>
      obtain ⟨g2, s2, r2⟩ := x2
      cases hC : pollUntil (fun s => 78000 ≤ s.altitude) r2 with
      | none =>
        left
        constructor <;>
          (unfold runMission; rw [hA];
           simp only [Option.bind_eq_bind, Option.some_bind]; rw [hB];
           simp only [Option.some_bind]; rw [hC]; rfl)
      | some x3 =>
        obtain ⟨g3, s3, r3⟩ := x3
        cases hD : circSplit r3 with
        | none =>
          left
          constructor <;>
            (unfold runMission; rw [hA];
             simp only [Option.bind_eq_bind, Option.some_bind]; rw [hB];
             simp only [Option.some_bind]; rw [hC];
             simp only [Option.some_bind]; rw [hD]; rfl)
        | some x4 =>
          obtain ⟨fe, g4, s4⟩ := x4
          right
          exact ⟨g1, s1, g2, g3, g4, fe, s4,
            runMission_eq true t r1 r2 r3 g1 g2 g3 g4 s1 s2 s3 s4 fe
              hA hB hC hD,
            runMission_eq false t r1 r2 r3 g1 g2 g3 g4 s1 s2 s3 s4 fe
              hA hB hC hD⟩

/-- Claim C9 (amended): when the recorder construction raises, the exception
is caught, a warning is logged instead of the success message, and the
mission proceeds identically — the same phases, actuator commands, outcome
and fuel-empty flag, the same completion behaviour — with every recorder
call site guarded so that no recorder operation at all is attempted; the
event log is also unchanged except at the two recorder-dependent lines: the
initialization message (warning instead of success) and the final
"flight data saved" notice, which is omitted. -/
theorem recorder_disabled_independent (t : List Snapshot) :
    (runMission false t).map MissionLog.phases =
      (runMission true t).map MissionLog.phases
  ∧ (runMission false t).map MissionLog.cmds =
      (runMission true t).map MissionLog.cmds
  ∧ (runMission false t).map MissionLog.outcome =
      (runMission true t).map MissionLog.outcome
  ∧ (runMission false t).map MissionLog.fuel_empty =
      (runMission true t).map MissionLog.fuel_empty
  ∧ (runMission false t).isSome = (runMission true t).isSome
  ∧ (∀ log, runMission false t = some log → log.recOps = [])
  ∧ ∀ logT logF, runMission true t = some logT →
      runMission false t = some logF →
      ∃ mid, logT.events = Event.recInitOk :: (mid ++ [Event.dataSaved])
        ∧ logF.events = Event.recInitWarn :: mid := by
  rcases runMission_indep t with ⟨hT, hF⟩ |
    ⟨g1, s1, g2, g3, g4, fe, s4, hT, hF⟩
  · rw [hT, hF]
    refine ⟨rfl, rfl, rfl, rfl, rfl, ?_, ?_⟩
    · intro log h
      cases h
    · intro logT logF hTT _
      cases hTT
  · rw [hT, hF]
    refine ⟨rfl, rfl, rfl, rfl, rfl, ?_, ?_⟩
    · intro log h
      have hlog := Option.some.inj h
      rw [← hlog]
      simp [missionResult]
    · intro logT logF hTT hFF
      have hlogT := Option.some.inj hTT
      have hlogF := Option.some.inj hFF
      refine ⟨fuelAdvisories 0 (g2.map (fun s => s.fuel)) ++
        ((if fe then [Event.fuelEmptyMsg] else []) ++
          [Event.outcomeMsg (classify fe s4.periapsis)]), ?_, ?_⟩
      · rw [← hlogT]
        simp [missionResult, List.append_assoc]
      · rw [← hlogF]
        simp [missionResult, List.append_assoc]

/-- Claim C9 counterexample: event logging is not fully unchanged when the
recorder is disabled — on a nominal four-reading trace, the run with the
recorder emits the final "flight data saved" notice (line 541, guarded by
`if flight_data_logger`) and the initialization success message, while the
run without it emits the warning and no notice: the two event logs differ. -/
theorem recorder_events_counterexample :
    (runMission true [mkSnap 10000 30000 0 45 90 300 300 false,
        mkSnap 30000 80000 0 10 90 200 200 false,
        mkSnap 78000 80500 0 5 90 180 180 false,
        mkSnap 77000 80500 75000 0 90 150 150 false]).map MissionLog.events ≠
    (runMission false [mkSnap 10000 30000 0 45 90 300 300 false,
        mkSnap 30000 80000 0 10 90 200 200 false,
        mkSnap 78000 80500 0 5 90 180 180 false,
        mkSnap 77000 80500 75000 0 90 150 150 false]).map MissionLog.events := by
  have hA : pollUntil (fun s => 10000 ≤ s.altitude)
      [mkSnap 10000 30000 0 45 90 300 300 false,
       mkSnap 30000 80000 0 10 90 200 200 false,
       mkSnap 78000 80500 0 5 90 180 180 false,
       mkSnap 77000 80500 75000 0 90 150 150 false] =
      some ([], mkSnap 10000 30000 0 45 90 300 300 false,
        [mkSnap 30000 80000 0 10 90 200 200 false,
         mkSnap 78000 80500 0 5 90 180 180 false,
         mkSnap 77000 80500 75000 0 90 150 150 false]) := by
    norm_num [pollUntil, mkSnap]
  have hB : pollUntil (fun s => 80000 ≤ s.apoapsis)
      [mkSnap 30000 80000 0 10 90 200 200 false,
       mkSnap 78000 80500 0 5 90 180 180 false,
       mkSnap 77000 80500 75000 0 90 150 150 false] =
      some ([], mkSnap 30000 80000 0 10 90 200 200 false,
        [mkSnap 78000 80500 0 5 90 180 180 false,
         mkSnap 77000 80500 75000 0 90 150 150 false]) := by
    norm_num [pollUntil, mkSnap]
  have hC : pollUntil (fun s => 78000 ≤ s.altitude)
      [mkSnap 78000 80500 0 5 90 180 180 false,
       mkSnap 77000 80500 75000 0 90 150 150 false] =
      some ([], mkSnap 78000 80500 0 5 90 180 180 false,
        [mkSnap 77000 80500 75000 0 90 150 150 false]) := by
    norm_num [pollUntil, mkSnap]
  have hD : circSplit [mkSnap 77000 80500 75000 0 90 150 150 false] =
      some (false, [], mkSnap 77000 80500 75000 0 90 150 150 false) := by
    norm_num [circSplit, mkSnap]
  have hT := runMission_eq true
    [mkSnap 10000 30000 0 45 90 300 300 false,
     mkSnap 30000 80000 0 10 90 200 200 false,
     mkSnap 78000 80500 0 5 90 180 180 false,
     mkSnap 77000 80500 75000 0 90 150 150 false]
    [mkSnap 30000 80000 0 10 90 200 200 false,
     mkSnap 78000 80500 0 5 90 180 180 false,
     mkSnap 77000 80500 75000 0 90 150 150 false]
    [mkSnap 78000 80500 0 5 90 180 180 false,
     mkSnap 77000 80500 75000 0 90 150 150 false]
    [mkSnap 77000 80500 75000 0 90 150 150 false]
    [] [] [] []
    (mkSnap 10000 30000 0 45 90 300 300 false)
    (mkSnap 30000 80000 0 10 90 200 200 false)
    (mkSnap 78000 80500 0 5 90 180 180 false)
    (mkSnap 77000 80500 75000 0 90 150 150 false) false
    hA hB hC hD
  have hF := runMission_eq false
    [mkSnap 10000 30000 0 45 90 300 300 false,
     mkSnap 30000 80000 0 10 90 200 200 false,
     mkSnap 78000 80500 0 5 90 180 180 false,
     mkSnap 77000 80500 75000 0 90 150 150 false]
    [mkSnap 30000 80000 0 10 90 200 200 false,
     mkSnap 78000 80500 0 5 90 180 180 false,
     mkSnap 77000 80500 75000 0 90 150 150 false]
    [mkSnap 78000 80500 0 5 90 180 180 false,
     mkSnap 77000 80500 75000 0 90 150 150 false]
    [mkSnap 77000 80500 75000 0 90 150 150 false]
    [] [] [] []
    (mkSnap 10000 30000 0 45 90 300 300 false)
    (mkSnap 30000 80000 0 10 90 200 200 false)
    (mkSnap 78000 80500 0 5 90 180 180 false)
    (mkSnap 77000 80500 75000 0 90 150 150 false) false
    hA hB hC hD
  rw [hT, hF]
  simp [missionResult]

/-- Claim C9 witness: on the nominal four-reading trace the disabled-recorder
run issues the very same actuator commands, performs no recorder operation,
and its event log is the enabled run's log with the initialization line
swapped for the warning and the saved-data notice dropped. -/
theorem recorder_disabled_independent_witness :
    (runMission false [mkSnap 10000 30000 0 45 90 300 300 false,
        mkSnap 30000 80000 0 10 90 200 200 false,
        mkSnap 78000 80500 0 5 90 180 180 false,
        mkSnap 77000 80500 75000 0 90 150 150 false]).map MissionLog.cmds =
      (runMission true [mkSnap 10000 30000 0 45 90 300 300 false,
        mkSnap 30000 80000 0 10 90 200 200 false,
        mkSnap 78000 80500 0 5 90 180 180 false,
        mkSnap 77000 80500 75000 0 90 150 150 false]).map MissionLog.cmds
  ∧ (missionResult false (mkSnap 10000 30000 0 45 90 300 300 false)
      [] [] [] [] false (mkSnap 77000 80500 75000 0 90 150 150 false)).recOps
      = []
  ∧ ∃ mid,
      (missionResult true (mkSnap 10000 30000 0 45 90 300 300 false)
        [] [] [] [] false
        (mkSnap 77000 80500 75000 0 90 150 150 false)).events =
        Event.recInitOk :: (mid ++ [Event.dataSaved])
    ∧ (missionResult false (mkSnap 10000 30000 0 45 90 300 300 false)
        [] [] [] [] false
        (mkSnap 77000 80500 75000 0 90 150 150 false)).events =
        Event.recInitWarn :: mid := by
  have hA : pollUntil (fun s => 10000 ≤ s.altitude)
      [mkSnap 10000 30000 0 45 90 300 300 false,
       mkSnap 30000 80000 0 10 90 200 200 false,
       mkSnap 78000 80500 0 5 90 180 180 false,
       mkSnap 77000 80500 75000 0 90 150 150 false] =
      some ([], mkSnap 10000 30000 0 45 90 300 300 false,
        [mkSnap 30000 80000 0 10 90 200 200 false,
         mkSnap 78000 80500 0 5 90 180 180 false,
         mkSnap 77000 80500 75000 0 90 150 150 false]) := by
    norm_num [pollUntil, mkSnap]
  have hB : pollUntil (fun s => 80000 ≤ s.apoapsis)
      [mkSnap 30000 80000 0 10 90 200 200 false,
       mkSnap 78000 80500 0 5 90 180 180 false,
       mkSnap 77000 80500 75000 0 90 150 150 false] =
      some ([], mkSnap 30000 80000 0 10 90 200 200 false,
        [mkSnap 78000 80500 0 5 90 180 180 false,
         mkSnap 77000 80500 75000 0 90 150 150 false]) := by
    norm_num [pollUntil, mkSnap]
  have hC : pollUntil (fun s => 78000 ≤ s.altitude)
      [mkSnap 78000 80500 0 5 90 180 180 false,
       mkSnap 77000 80500 75000 0 90 150 150 false] =
      some ([], mkSnap 78000 80500 0 5 90 180 180 false,
        [mkSnap 77000 80500 75000 0 90 150 150 false]) := by
    norm_num [pollUntil, mkSnap]
  have hD : circSplit [mkSnap 77000 80500 75000 0 90 150 150 false] =
      some (false, [], mkSnap 77000 80500 75000 0 90 150 150 false) := by
    norm_num [circSplit, mkSnap]
  have h := recorder_disabled_independent
    [mkSnap 10000 30000 0 45 90 300 300 false,
     mkSnap 30000 80000 0 10 90 200 200 false,
     mkSnap 78000 80500 0 5 90 180 180 false,
     mkSnap 77000 80500 75000 0 90 150 150 false]
  have hT := runMission_eq true
    [mkSnap 10000 30000 0 45 90 300 300 false,
     mkSnap 30000 80000 0 10 90 200 200 false,
     mkSnap 78000 80500 0 5 90 180 180 false,
     mkSnap 77000 80500 75000 0 90 150 150 false]
    [mkSnap 30000 80000 0 10 90 200 200 false,
     mkSnap 78000 80500 0 5 90 180 180 false,
     mkSnap 77000 80500 75000 0 90 150 150 false]
    [mkSnap 78000 80500 0 5 90 180 180 false,
     mkSnap 77000 80500 75000 0 90 150 150 false]
    [mkSnap 77000 80500 75000 0 90 150 150 false]
    [] [] [] []
    (mkSnap 10000 30000 0 45 90 300 300 false)
    (mkSnap 30000 80000 0 10 90 200 200 false)
    (mkSnap 78000 80500 0 5 90 180 180 false)
    (mkSnap 77000 80500 75000 0 90 150 150 false) false
    hA hB hC hD
  have hF := runMission_eq false
    [mkSnap 10000 30000 0 45 90 300 300 false,
     mkSnap 30000 80000 0 10 90 200 200 false,
     mkSnap 78000 80500 0 5 90 180 180 false,
     mkSnap 77000 80500 75000 0 90 150 150 false]
    [mkSnap 30000 80000 0 10 90 200 200 false,
     mkSnap 78000 80500 0 5 90 180 180 false,
     mkSnap 77000 80500 75000 0 90 150 150 false]
    [mkSnap 78000 80500 0 5 90 180 180 false,
     mkSnap 77000 80500 75000 0 90 150 150 false]
    [mkSnap 77000 80500 75000 0 90 150 150 false]
    [] [] [] []
    (mkSnap 10000 30000 0 45 90 300 300 false)
    (mkSnap 30000 80000 0 10 90 200 200 false)
    (mkSnap 78000 80500 0 5 90 180 180 false)
    (mkSnap 77000 80500 75000 0 90 150 150 false) false
    hA hB hC hD
  exact ⟨h.2.1, h.2.2.2.2.2.1 _ hF, h.2.2.2.2.2.2 _ _ hT hF⟩
